import Mathlib

/-!
Verification of the stl-cleaner repository (src/src/stl-cleaner.py) against its
natural-language specification.

Modelling conventions:
* Python floats are modelled as exact numbers: the geometry kernel is stated
  over an arbitrary `LinearOrderedField` and instantiated at `ℝ` (with
  `Real.sqrt` standing for `math.sqrt`) where the value of a square root
  matters, and at `ℚ` (with the square root left as an explicit function
  parameter `sqrt`) where computations must be executable; the claims settled
  over `ℚ` never depend on the value of `sqrt`.
* A Python facet list `[normal, vertex1, vertex2, vertex3]` is the structure
  `Facet` (field `normal` is `facet[0]`, `v1`/`v2`/`v3` are `facet[1..3]`).
* Python dicts keyed by edges are insertion-ordered association lists, which
  matches CPython's dict iteration order; Python `set` dedup is `List.dedup`
  (only membership semantics of the result are ever used).
* Binary I/O is modelled at two levels: `is_binary_stl` and the writer work on
  byte lists (`List ℕ`, each entry one byte), while the per-triangle read loop
  works on already-unpacked 50-byte records (`BinRecord`), since the claims
  about it do not depend on the IEEE-754 encoding of the twelve floats.
  The encoding of a 3-float group by `struct.pack("<3f", ...)` is kept as an
  abstract parameter `pack3f` whose 12-byte length is a hypothesis.
-/

/-- A 3-component vector, Python's 3-element coordinate tuples/lists. -/
structure Vec3 (α : Type) where
  x : α
  y : α
  z : α
deriving DecidableEq

/-- `v[j]` for a 3-element Python sequence (indices beyond 2 do not occur). -/
def Vec3.nth {α : Type} (v : Vec3 α) : ℕ → α
  | 0 => v.x
  | 1 => v.y
  | _ => v.z

/-- `v[j] = a` for a 3-element Python list. -/
def Vec3.setNth {α : Type} (v : Vec3 α) : ℕ → α → Vec3 α
  | 0, a => ⟨a, v.y, v.z⟩
  | 1, a => ⟨v.x, a, v.z⟩
  | _, a => ⟨v.x, v.y, a⟩

/-- Componentwise `[v2 - v1 for v1, v2 in zip(a, b)]` is `vsub b a`. -/
def vsub {α : Type} [LinearOrderedField α] (a b : Vec3 α) : Vec3 α :=
  ⟨a.x - b.x, a.y - b.y, a.z - b.z⟩

/-- Componentwise vector + offset (the repositioning translation). -/
def vadd {α : Type} [LinearOrderedField α] (a b : Vec3 α) : Vec3 α :=
  ⟨a.x + b.x, a.y + b.y, a.z + b.z⟩

/-- `dot_product(v1, v2)` (source line 35). -/
def dot_product {α : Type} [LinearOrderedField α] (v1 v2 : Vec3 α) : α :=
  v1.x * v2.x + v1.y * v2.y + v1.z * v2.z

/-- `cross_product(v1, v2)` (source line 38). -/
def cross_product {α : Type} [LinearOrderedField α] (v1 v2 : Vec3 α) : Vec3 α :=
  ⟨v1.y * v2.z - v1.z * v2.y, v1.z * v2.x - v1.x * v2.z, v1.x * v2.y - v1.y * v2.x⟩

/-- `vector_magnitude(v)` (source line 45): `math.sqrt(sum(x ** 2 for x in v))`.
`math.sqrt` is the parameter `sqrt` (instantiated with `Real.sqrt` over `ℝ`). -/
def vector_magnitude {α : Type} [LinearOrderedField α] (sqrt : α → α) (v : Vec3 α) : α :=
  sqrt (v.x ^ 2 + v.y ^ 2 + v.z ^ 2)

/-- `normalize_vector(v)` (source line 48): the zero vector when the magnitude
is zero, otherwise each component divided by the magnitude. -/
def normalize_vector {α : Type} [LinearOrderedField α] (sqrt : α → α) (v : Vec3 α) : Vec3 α :=
  let magnitude := vector_magnitude sqrt v
  if magnitude = 0 then ⟨0, 0, 0⟩
  else ⟨v.x / magnitude, v.y / magnitude, v.z / magnitude⟩

/-- `recalculate_normal(vertex1, vertex2, vertex3)` (source line 55). -/
def recalculate_normal {α : Type} [LinearOrderedField α] (sqrt : α → α)
    (vertex1 vertex2 vertex3 : Vec3 α) : Vec3 α :=
  normalize_vector sqrt (cross_product (vsub vertex2 vertex1) (vsub vertex3 vertex1))

/-- `ensure_counterclockwise(vertex1, vertex2, vertex3, normal)` (source line 73):
swap the last two vertices when the computed winding disagrees with `normal`. -/
def ensure_counterclockwise {α : Type} [LinearOrderedField α]
    (vertex1 vertex2 vertex3 normal : Vec3 α) : Vec3 α × Vec3 α × Vec3 α :=
  let calculated_normal := cross_product (vsub vertex2 vertex1) (vsub vertex3 vertex1)
  if dot_product calculated_normal normal < 0 then (vertex1, vertex3, vertex2)
  else (vertex1, vertex2, vertex3)

/-- `is_counterclockwise(vertex1, vertex2, vertex3, normal)` (source line 81). -/
def is_counterclockwise {α : Type} [LinearOrderedField α]
    (vertex1 vertex2 vertex3 normal : Vec3 α) : Bool :=
  let calculated_normal := cross_product (vsub vertex2 vertex1) (vsub vertex3 vertex1)
  decide (0 < dot_product calculated_normal normal)

/-- A facet `[normal, vertex1, vertex2, vertex3]`. -/
structure Facet (α : Type) where
  normal : Vec3 α
  v1 : Vec3 α
  v2 : Vec3 α
  v3 : Vec3 α
deriving DecidableEq

/-- Claim C8 helper: swapping the two arguments of the cross product negates it. -/
theorem cross_product_comm {α : Type} [LinearOrderedField α] (a b : Vec3 α) :
    cross_product b a = ⟨-(cross_product a b).x, -(cross_product a b).y, -(cross_product a b).z⟩ := by
  simp only [cross_product, Vec3.mk.injEq]
  refine ⟨by ring, by ring, by ring⟩

/-- Claim C8: `ensure_counterclockwise` is idempotent: applied to its own output
(with the same normal) it returns that output unchanged.  When the dot product
of the computed edge cross product with `normal` is not negative the input
triple is returned unchanged; otherwise the last two vertices are swapped and
the swapped triple satisfies the nonnegative-dot condition. -/
theorem ensure_counterclockwise_idempotent {α : Type} [LinearOrderedField α]
    (v1 v2 v3 normal : Vec3 α) :
    (let out := ensure_counterclockwise v1 v2 v3 normal
     ensure_counterclockwise out.1 out.2.1 out.2.2 normal = out)
    ∧ (0 ≤ dot_product (cross_product (vsub v2 v1) (vsub v3 v1)) normal →
        ensure_counterclockwise v1 v2 v3 normal = (v1, v2, v3))
    ∧ (dot_product (cross_product (vsub v2 v1) (vsub v3 v1)) normal < 0 →
        ensure_counterclockwise v1 v2 v3 normal = (v1, v3, v2)
        ∧ 0 ≤ dot_product (cross_product (vsub v3 v1) (vsub v2 v1)) normal) := by
  have hswap : dot_product (cross_product (vsub v3 v1) (vsub v2 v1)) normal
      = -dot_product (cross_product (vsub v2 v1) (vsub v3 v1)) normal := by
    rw [cross_product_comm]
    simp only [dot_product]
    ring
  refine ⟨?_, ?_, ?_⟩
  · by_cases h : dot_product (cross_product (vsub v2 v1) (vsub v3 v1)) normal < 0
    · simp only [ensure_counterclockwise, if_pos h]
      rw [if_neg]
      rw [hswap]
      simp only [not_lt, Left.nonneg_neg_iff]
      exact le_of_lt h
    · simp only [ensure_counterclockwise, if_neg h]
  · intro h
    simp only [ensure_counterclockwise, if_neg (not_lt.mpr h)]
  · intro h
    constructor
    · simp only [ensure_counterclockwise, if_pos h]
    · rw [hswap]
      simp only [Left.nonneg_neg_iff]
      exact le_of_lt h

/-- Claim C8 witness: a concrete rational triple whose winding disagrees with
the normal, so the swap branch is exercised and its output is stable. -/
theorem ensure_counterclockwise_idempotent_witness :
    (dot_product (cross_product (vsub ⟨0, 1, 0⟩ ⟨0, 0, 0⟩) (vsub ⟨1, 0, 0⟩ ⟨0, 0, 0⟩))
        (⟨0, 0, 1⟩ : Vec3 ℚ) < 0)
    ∧ ensure_counterclockwise (⟨0, 0, 0⟩ : Vec3 ℚ) ⟨0, 1, 0⟩ ⟨1, 0, 0⟩ ⟨0, 0, 1⟩
        = (⟨0, 0, 0⟩, ⟨1, 0, 0⟩, ⟨0, 1, 0⟩) := by
  refine ⟨by with_unfolding_all decide, ?_⟩
  exact (ensure_counterclockwise_idempotent (⟨0, 0, 0⟩ : Vec3 ℚ) ⟨0, 1, 0⟩ ⟨1, 0, 0⟩
    ⟨0, 0, 1⟩).2.2 (by with_unfolding_all decide) |>.1

/-! ## Manifold repair engine (source lines 87-172)

The engine is executable over `ℚ`; `math.sqrt`, which only feeds the normals of
synthesized facets, stays an explicit function parameter `sqrt`. -/

/-- An edge: an unordered pair of vertices canonicalized by sorting. -/
def Edge : Type := Vec3 ℚ × Vec3 ℚ

instance : DecidableEq Edge := by
  unfold Edge
  infer_instance

/-- Python tuple `<` (lexicographic) on coordinate triples. -/
def vlt (a b : Vec3 ℚ) : Bool :=
  decide (a.x < b.x ∨ (a.x = b.x ∧ (a.y < b.y ∨ (a.y = b.y ∧ a.z < b.z))))

/-- `tuple(sorted((a, b)))`: the pair in ascending lexicographic order. -/
def sorted_pair (a b : Vec3 ℚ) : Edge :=
  if vlt b a then (b, a) else (a, b)

/-- The three canonicalized edges of a facet (source lines 98-102 and 149-153):
`sorted(v1, v2)`, `sorted(v2, v3)`, `sorted(v3, v1)`. -/
def facet_edges (f : Facet ℚ) : List Edge :=
  [sorted_pair f.v1 f.v2, sorted_pair f.v2 f.v3, sorted_pair f.v3 f.v1]

/-- `edge_to_facets[edge].append(facet)` with dict-insertion order preserved
(source lines 103-106): a new key goes to the end of the association list. -/
def add_edge_facet (m : List (Edge × List (Facet ℚ))) (e : Edge) (f : Facet ℚ) :
    List (Edge × List (Facet ℚ)) :=
  match m with
  | [] => [(e, [f])]
  | (e2, fs) :: rest =>
    if e2 = e then (e2, fs ++ [f]) :: rest else (e2, fs) :: add_edge_facet rest e f

/-- Step 1 of `make_model_manifold` (source lines 96-106): map each edge to the
facets that reference it, in insertion order. -/
def edge_to_facets (facets : List (Facet ℚ)) : List (Edge × List (Facet ℚ)) :=
  facets.foldl (fun m f => (facet_edges f).foldl (fun m2 e => add_edge_facet m2 e f) m) []

/-- Step 2 of `make_model_manifold` (source lines 108-111): edges referenced by
exactly one facet, in dict iteration (= insertion) order. -/
def open_edges (facets : List (Facet ℚ)) : List Edge :=
  ((edge_to_facets facets).filter (fun p => p.2.length == 1)).map (fun p => p.1)

/-- Step 3 of `make_model_manifold` (source lines 113-123): for each open edge
`(v1, v2)`, the first other open edge containing `v2` donates its other vertex
as `v3`, and a facet `[recalculate_normal(v1,v2,v3), v1, v2, v3]` is appended. -/
def close_open_edges (sqrt : ℚ → ℚ) (oes : List Edge) : List (Facet ℚ) :=
  oes.foldl (fun fixed_facets e =>
    match oes.find? (fun oe => (oe.1 == e.2 || oe.2 == e.2) && !(oe == e)) with
    | some oe =>
      let v3 := if oe.2 = e.2 then oe.1 else oe.2
      fixed_facets ++ [⟨recalculate_normal sqrt e.1 e.2 v3, e.1, e.2, v3⟩]
    | none => fixed_facets) []

/-- `make_model_manifold(facets)` (source lines 87-129).  Step 4's Python
`set(facets + fixed_facets)` has unspecified iteration order; only the
membership semantics of the result is ever used, so it is `List.dedup`. -/
def make_model_manifold (sqrt : ℚ → ℚ) (facets : List (Facet ℚ)) : List (Facet ℚ) :=
  let fixed_facets := close_open_edges sqrt (open_edges facets)
  (facets ++ fixed_facets).dedup

/-- Edge-usage histogram of `is_model_manifold` (source lines 145-158). -/
def edge_usage (facets : List (Facet ℚ)) : List (Edge × ℕ) :=
  facets.foldl (fun m f => (facet_edges f).foldl (fun m2 e => incr_edge m2 e) m) []
where
  incr_edge (m : List (Edge × ℕ)) (e : Edge) : List (Edge × ℕ) :=
    match m with
    | [] => [(e, 1)]
    | (e2, c) :: rest =>
      if e2 = e then (e2, c + 1) :: rest else (e2, c) :: incr_edge rest e

/-- `is_model_manifold(facets)` (source lines 132-172): true iff every edge is
used by exactly two facets. -/
def is_model_manifold (facets : List (Facet ℚ)) : Bool :=
  ((edge_usage facets).filter (fun p => !(p.2 == 2))).isEmpty

/-! ## Claim C2: hole closing on a closed mesh with one missing triangle -/

/-- Vertices of a tetrahedron. -/
def P0 : Vec3 ℚ := ⟨0, 0, 0⟩

/-- Vertex (1,0,0) of the tetrahedron. -/
def P1 : Vec3 ℚ := ⟨1, 0, 0⟩

/-- Vertex (0,1,0) of the tetrahedron. -/
def P2 : Vec3 ℚ := ⟨0, 1, 0⟩

/-- Vertex (0,0,1) of the tetrahedron. -/
def P3 : Vec3 ℚ := ⟨0, 0, 1⟩

/-- The tetrahedron `{P0, P1, P2, P3}` with the face `(P1, P2, P3)` removed: a
closed mesh with exactly one triangle missing, whose three open edges form the
boundary of the missing triangle.  Each facet carries its recomputed normal,
as every facet does after the read phase (source lines 290 and 415). -/
def tetraHole : List (Facet ℚ) :=
  [⟨⟨0, 0, 1⟩, P0, P1, P2⟩, ⟨⟨0, -1, 0⟩, P0, P1, P3⟩, ⟨⟨1, 0, 0⟩, P0, P2, P3⟩]

/-- Projection of a facet to its vertex triple (used to show the dedup step
cannot merge any of the facets below, whatever their normals are). -/
def facet_vertices (f : Facet ℚ) : Vec3 ℚ × Vec3 ℚ × Vec3 ℚ := (f.v1, f.v2, f.v3)

/-- The facet synthesized for an open edge at source lines 120-121. -/
def synth_facet (sqrt : ℚ → ℚ) (a b c : Vec3 ℚ) : Facet ℚ :=
  ⟨recalculate_normal sqrt a b c, a, b, c⟩

/-- Claim C2, counterexample.  `tetraHole` is a closed mesh with exactly one
triangle removed: restoring the missing facet `(P1, P2, P3)` makes every edge
count exactly 2, and `tetraHole` itself has exactly 3 open edges.  Yet
`make_model_manifold` does not return a manifold facet set on it:
`is_model_manifold` is `false` on the result (each boundary edge ends up used
by four facets).  The square-root function only feeds the synthesized normals,
which the edge histogram never reads (`make_model_manifold_tetra_hole` proves
the result for every `sqrt`), so it is instantiated here with the identity to
obtain a closed statement. -/
theorem make_model_manifold_tetra_hole_cex :
    is_model_manifold (tetraHole ++ [⟨⟨1, 1, 1⟩, P1, P2, P3⟩]) = true
    ∧ (open_edges tetraHole).length = 3
    ∧ is_model_manifold (make_model_manifold (fun q => q) tetraHole) = false := by
  refine ⟨by with_unfolding_all decide, by with_unfolding_all decide, by with_unfolding_all decide⟩

/-- Claim C2, amended.  On a closed mesh with exactly one triangle removed,
`make_model_manifold` synthesizes one new facet per open edge — three facets
covering the missing triangle in three different vertex orders — rather than a
single patch, so each boundary edge becomes used by four facets and
`is_model_manifold` on the result returns `false`.  Proved on the
tetrahedron-with-one-face-removed mesh, for every square-root function. -/
theorem make_model_manifold_tetra_hole (sqrt : ℚ → ℚ) :
    make_model_manifold sqrt tetraHole
      = tetraHole ++ [synth_facet sqrt P2 P1 P3, synth_facet sqrt P3 P1 P2,
                      synth_facet sqrt P3 P2 P1]
    ∧ is_model_manifold (make_model_manifold sqrt tetraHole) = false := by
  have hfull : make_model_manifold sqrt tetraHole
      = (tetraHole ++ [synth_facet sqrt P2 P1 P3, synth_facet sqrt P3 P1 P2,
                       synth_facet sqrt P3 P2 P1]).dedup := by
    with_unfolding_all rfl
  have hmap : (tetraHole ++ [synth_facet sqrt P2 P1 P3, synth_facet sqrt P3 P1 P2,
                       synth_facet sqrt P3 P2 P1]).map facet_vertices
      = [(P0, P1, P2), (P0, P1, P3), (P0, P2, P3),
         (P2, P1, P3), (P3, P1, P2), (P3, P2, P1)] := by
    with_unfolding_all rfl
  have hnodup : (tetraHole ++ [synth_facet sqrt P2 P1 P3, synth_facet sqrt P3 P1 P2,
                       synth_facet sqrt P3 P2 P1]).Nodup := by
    apply List.Nodup.of_map facet_vertices
    rw [hmap]
    with_unfolding_all decide
  have heq : make_model_manifold sqrt tetraHole
      = tetraHole ++ [synth_facet sqrt P2 P1 P3, synth_facet sqrt P3 P1 P2,
                      synth_facet sqrt P3 P2 P1] := by
    rw [hfull, List.dedup_eq_self.mpr hnodup]
  refine ⟨heq, ?_⟩
  rw [heq]
  with_unfolding_all rfl

/-! ## Binary format sniff (source lines 242-251) -/

/-- Little-endian unsigned 32-bit decode of four bytes (`struct.unpack('<I')`). -/
def le_u32 (b0 b1 b2 b3 : ℕ) : ℕ := b0 + 256 * b1 + 65536 * b2 + 16777216 * b3

/-- `is_binary_stl(file_path)` (source lines 242-251) on the file's bytes:
when fewer than 84 bytes exist, `struct.unpack('<I', file.read(4))` raises
`struct.error` and the function returns `False`; otherwise the file is binary
iff `80 + 4 + 50 * triangle_count` equals the file size, where
`triangle_count` is the little-endian `u32` at offset 80. -/
def is_binary_stl (bytes : List ℕ) : Bool :=
  if bytes.length < 84 then false
  else 80 + 4 + 50 * le_u32 (bytes.getD 80 0) (bytes.getD 81 0) (bytes.getD 82 0)
      (bytes.getD 83 0) == bytes.length

/-- Claim C5: a file is classified binary iff `80 + 4 + 50 * N` equals its byte
length, for `N` the little-endian u32 at offset 80; a file too short for those
4 bytes is not binary; and any ASCII file that starts with `solid` — all bytes
in the ASCII text range (9..126, so the byte at offset 83 is at least 9, making
`N ≥ 9 * 2^24` and the required size at least `84 + 50 * 9 * 2^24` bytes) and
of any realistic length — is classified as non-binary. -/
theorem is_binary_stl_spec (bytes : List ℕ) :
    (is_binary_stl bytes = true ↔
      84 ≤ bytes.length ∧
      80 + 4 + 50 * le_u32 (bytes.getD 80 0) (bytes.getD 81 0) (bytes.getD 82 0)
          (bytes.getD 83 0) = bytes.length)
    ∧ (bytes.take 5 = [115, 111, 108, 105, 100] →
       (∀ b ∈ bytes, 9 ≤ b ∧ b ≤ 126) →
       bytes.length < 84 + 50 * (9 * 16777216) →
       is_binary_stl bytes = false) := by
  constructor
  · unfold is_binary_stl
    by_cases h : bytes.length < 84
    · simp only [if_pos h]
      simp only [Bool.false_eq_true, false_iff, not_and]
      intro hle
      omega
    · simp only [if_neg h, beq_iff_eq]
      constructor
      · intro he
        exact ⟨le_of_not_lt h, he⟩
      · intro he
        exact he.2
  · intro _ hascii hlen
    unfold is_binary_stl
    by_cases h : bytes.length < 84
    · simp only [if_pos h]
    · simp only [if_neg h]
      have h83lt : 83 < bytes.length := by omega
      have hmem : bytes.getD 83 0 ∈ bytes := by
        rw [List.getD_eq_getElem bytes 0 h83lt]
        exact bytes.getElem_mem h83lt
      have h9 : 9 ≤ bytes.getD 83 0 := (hascii _ hmem).1
      simp only [beq_eq_false_iff_ne, ne_eq]
      unfold le_u32
      omega

/-- Claim C5 witness: a 7-byte ASCII file `solid a` is classified non-binary. -/
theorem is_binary_stl_spec_witness :
    ([115, 111, 108, 105, 100, 32, 97] : List ℕ).take 5 = [115, 111, 108, 105, 100]
    ∧ is_binary_stl [115, 111, 108, 105, 100, 32, 97] = false := by
  exact ⟨by decide, (is_binary_stl_spec _).2 (by decide) (by decide) (by decide)⟩

/-! ## Configuration and repositioning -/

/-- The configurable options that influence the core (source lines 20-23,
set by the CLI at lines 525-537). -/
structure Config where
  force_repositioning : Bool
  new_min_pos : Vec3 ℚ
  ignore_endsolid_name : Bool
  indent_spaces : ℕ

/-- The defaults `force_repositioning = False`, `new_min_pos = [0.01]*3`,
`ignore_endsolid_name = False`, `indent_spaces = 1`. -/
def defaultConfig : Config := ⟨false, ⟨1/100, 1/100, 1/100⟩, false, 1⟩

/-- `min_vertex = [float("inf")]*3` (source lines 273 and 378); the float
infinity is `⊤` of `WithTop ℚ`. -/
def inf_min_vertex : Vec3 (WithTop ℚ) := ⟨⊤, ⊤, ⊤⟩

/-- The per-triangle minimum tracking of the binary reader, source lines
283-288, translated literally:

    for j in range(3):
        vertices = [vertex1, vertex2, vertex3]
        vertex = vertices[j]
        for i in range(3):
            if vertex[j] < min_vertex[j]:
                min_vertex[j] = vertex[j]

The inner loop repeats the comparison `vertex[j] < min_vertex[j]` three times
without using `i`, so axis `j` is only ever updated from the `j`-th coordinate
of vertex number `j` (and the loop variable `i` of the enclosing triangle loop
is left equal to 2). -/
def update_min_vertex_binary (minV : Vec3 (WithTop ℚ)) (v1 v2 v3 : Vec3 ℚ) :
    Vec3 (WithTop ℚ) :=
  (List.range 3).foldl (fun m j =>
    let vertices := [v1, v2, v3]
    let vertex := vertices.getD j v1
    (List.range 3).foldl (fun m2 _i =>
      if (vertex.nth j : WithTop ℚ) < m2.nth j then m2.setNth j (vertex.nth j) else m2) m)
    minV

/-- The per-vertex minimum tracking of the ASCII reader, source lines 404-406:
`for j in range(3): if vertex[j] < min_vertex[j]: min_vertex[j] = vertex[j]`. -/
def update_min_vertex_ascii (minV : Vec3 (WithTop ℚ)) (v : Vec3 ℚ) : Vec3 (WithTop ℚ) :=
  (List.range 3).foldl (fun m j =>
    if (v.nth j : WithTop ℚ) < m.nth j then m.setNth j (v.nth j) else m) minV

/-- The repositioning offset, source lines 318-323 (binary) and 457-462
(ASCII): per axis, `-min_vertex[i] + new_min_pos[i]` when repositioning is
forced or the tracked minimum is below the threshold, else `0`.  `untop' 0`
only strips the `WithTop` wrapper: with at least one facet the tracked minimum
is finite on the axes the loop reads (the infinite case would be Python's
`-inf + c = -inf`, reachable only for an empty model, which writes no facets). -/
def adapt_vertex (cfg : Config) (minV : Vec3 (WithTop ℚ)) : Vec3 ℚ :=
  let axis := fun i =>
    if cfg.force_repositioning = true ∨ minV.nth i < (cfg.new_min_pos.nth i : WithTop ℚ)
    then -((minV.nth i).untop' 0) + cfg.new_min_pos.nth i
    else 0
  ⟨axis 0, axis 1, axis 2⟩

/-- Claim C1: with the single binary triangle `(5,0,0), (0,5,0), (0,0,5)` the
binary reader's tracked minimum is `(5,5,5)` — it only compares vertex `j`'s
`j`-th coordinate — although the true per-axis minimum over all vertices is
`(0,0,0)` (which the ASCII reader's tracking, applied to the same three
vertices, does produce).  Under the default configuration the offset is
therefore `0` on every axis and the written model keeps x-coordinate `0`,
below the `0.01` threshold, contradicting the repositioning guarantee. -/
theorem binary_min_tracking_bug :
    update_min_vertex_binary inf_min_vertex ⟨5, 0, 0⟩ ⟨0, 5, 0⟩ ⟨0, 0, 5⟩
      = ⟨((5 : ℚ) : WithTop ℚ), ((5 : ℚ) : WithTop ℚ), ((5 : ℚ) : WithTop ℚ)⟩
    ∧ update_min_vertex_ascii
        (update_min_vertex_ascii (update_min_vertex_ascii inf_min_vertex ⟨5, 0, 0⟩) ⟨0, 5, 0⟩)
        ⟨0, 0, 5⟩
      = ⟨((0 : ℚ) : WithTop ℚ), ((0 : ℚ) : WithTop ℚ), ((0 : ℚ) : WithTop ℚ)⟩
    ∧ adapt_vertex defaultConfig
        (update_min_vertex_binary inf_min_vertex ⟨5, 0, 0⟩ ⟨0, 5, 0⟩ ⟨0, 0, 5⟩) = ⟨0, 0, 0⟩
    ∧ (0 : ℚ) + (adapt_vertex defaultConfig
        (update_min_vertex_binary inf_min_vertex ⟨5, 0, 0⟩ ⟨0, 5, 0⟩ ⟨0, 0, 5⟩)).x
      < defaultConfig.new_min_pos.x := by
  refine ⟨by with_unfolding_all decide, by with_unfolding_all decide,
    by with_unfolding_all decide, by with_unfolding_all decide⟩

/-! ## Binary write phase (source lines 314-338) -/

/-- `struct.pack('<H', n)`: two little-endian bytes. -/
def pack_u16 (n : ℕ) : List ℕ := [n % 256, n / 256 % 256]

/-- `struct.pack('<I', n)`: four little-endian bytes. -/
def pack_u32 (n : ℕ) : List ℕ :=
  [n % 256, n / 256 % 256, n / 65536 % 256, n / 16777216 % 256]

/-- The write-time repositioning and winding fix of one facet (source lines
325-333 for the binary writer, 468-474 for the ASCII writer): translate every
vertex by the offset and re-run `ensure_counterclockwise` against the stored
normal; the stored normal itself is emitted unchanged. -/
def write_facet_fixup {α : Type} [LinearOrderedField α] (adapt : Vec3 α) (f : Facet α) :
    Facet α :=
  let fixed := ensure_counterclockwise (vadd f.v1 adapt) (vadd f.v2 adapt) (vadd f.v3 adapt)
    f.normal
  ⟨f.normal, fixed.1, fixed.2.1, fixed.2.2⟩

/-- One 50-byte output record (source lines 334-338): the normal and the three
corrected vertices, each through the abstract `<3f` encoder `pack3f`, then the
attribute byte count 0. -/
def facet_record (pack3f : Vec3 ℚ → List ℕ) (adapt : Vec3 ℚ) (f : Facet ℚ) : List ℕ :=
  let w := write_facet_fixup adapt f
  pack3f w.normal ++ pack3f w.v1 ++ pack3f w.v2 ++ pack3f w.v3 ++ pack_u16 0

/-- The write phase of `clean_binary_stl_file` (source lines 314-338): echo the
80-byte header, re-pack the parsed triangle count, then one record per facet of
the post-repair facet list. -/
def clean_binary_write (pack3f : Vec3 ℚ → List ℕ) (header : List ℕ) (triangle_count : ℕ)
    (adapt : Vec3 ℚ) (facets : List (Facet ℚ)) : List ℕ :=
  header ++ pack_u32 triangle_count ++ facets.flatMap (facet_record pack3f adapt)

/-- Helper: the first four bytes of a list with at least four elements. -/
theorem take_four_eq (l : List ℕ) (h : 4 ≤ l.length) :
    l.take 4 = [l.getD 0 0, l.getD 1 0, l.getD 2 0, l.getD 3 0] := by
  rcases l with _ | ⟨a, _ | ⟨b, _ | ⟨c, _ | ⟨d, t⟩⟩⟩⟩ <;> simp_all

/-- Helper: indexing with a default after a drop. -/
theorem getD_drop (l : List ℕ) (m i : ℕ) : (l.drop m).getD i 0 = l.getD (m + i) 0 := by
  simp [List.getD, List.getElem?_drop]

/-- Claim C6: writing a binary file echoes the input's first 84 bytes (80-byte
header plus the 4-byte triangle-count field, re-encoded unchanged), while the
body holds exactly one 50-byte record per post-repair facet — so whenever the
repaired facet count differs from the parsed count, the count field no longer
matches the number of records actually written. -/
theorem clean_binary_write_spec (pack3f : Vec3 ℚ → List ℕ)
    (h12 : ∀ v, (pack3f v).length = 12) (input : List ℕ) (h84 : 84 ≤ input.length)
    (hbytes : ∀ b ∈ input, b < 256) (adapt : Vec3 ℚ) (facets : List (Facet ℚ)) :
    (clean_binary_write pack3f (input.take 80)
        (le_u32 (input.getD 80 0) (input.getD 81 0) (input.getD 82 0) (input.getD 83 0))
        adapt facets).take 84 = input.take 84
    ∧ (clean_binary_write pack3f (input.take 80)
        (le_u32 (input.getD 80 0) (input.getD 81 0) (input.getD 82 0) (input.getD 83 0))
        adapt facets).length = 84 + 50 * facets.length
    ∧ (facets.length
        ≠ le_u32 (input.getD 80 0) (input.getD 81 0) (input.getD 82 0) (input.getD 83 0) →
       le_u32 (input.getD 80 0) (input.getD 81 0) (input.getD 82 0) (input.getD 83 0)
        ≠ ((clean_binary_write pack3f (input.take 80)
            (le_u32 (input.getD 80 0) (input.getD 81 0) (input.getD 82 0) (input.getD 83 0))
            adapt facets).length - 84) / 50) := by
  have hhead : (input.take 80).length = 80 := by
    rw [List.length_take]
    omega
  have hrecord : ∀ f, (facet_record pack3f adapt f).length = 50 := by
    intro f
    simp [facet_record, h12, pack_u16]
  have hbody : ∀ fs : List (Facet ℚ),
      (fs.flatMap (facet_record pack3f adapt)).length = 50 * fs.length := by
    intro fs
    induction fs with
    | nil => simp
    | cons f t ih =>
      simp only [List.flatMap_cons, List.length_append, ih, hrecord, List.length_cons]
      ring
  have hlen : (clean_binary_write pack3f (input.take 80)
      (le_u32 (input.getD 80 0) (input.getD 81 0) (input.getD 82 0) (input.getD 83 0))
      adapt facets).length = 84 + 50 * facets.length := by
    simp [clean_binary_write, hhead, hbody, pack_u32]
    ring
  refine ⟨?_, hlen, ?_⟩
  · have hb : ∀ i, input.getD i 0 < 256 := by
      intro i
      by_cases hi : i < input.length
      · exact hbytes _ (by rw [List.getD_eq_getElem input 0 hi]; exact input.getElem_mem hi)
      · rw [List.getD_eq_default]
        · omega
        · omega
    have hpack : pack_u32
        (le_u32 (input.getD 80 0) (input.getD 81 0) (input.getD 82 0) (input.getD 83 0))
        = [input.getD 80 0, input.getD 81 0, input.getD 82 0, input.getD 83 0] := by
      have h0 := hb 80
      have h1 := hb 81
      have h2 := hb 82
      have h3 := hb 83
      simp only [pack_u32, le_u32, List.cons.injEq, and_true]
      omega
    have hdrop : (input.drop 80).take 4
        = [input.getD 80 0, input.getD 81 0, input.getD 82 0, input.getD 83 0] := by
      rw [take_four_eq _ (by rw [List.length_drop]; omega)]
      simp [getD_drop]
    calc (clean_binary_write pack3f (input.take 80)
        (le_u32 (input.getD 80 0) (input.getD 81 0) (input.getD 82 0) (input.getD 83 0))
        adapt facets).take 84
        = input.take 80 ++ pack_u32
            (le_u32 (input.getD 80 0) (input.getD 81 0) (input.getD 82 0) (input.getD 83 0)) := by
          rw [clean_binary_write, List.append_assoc, List.take_append_eq_append_take,
            List.take_of_length_le (by omega), List.take_append_eq_append_take, hhead]
          simp [pack_u32]
      _ = input.take 80 ++ (input.drop 80).take 4 := by rw [hpack, hdrop]
      _ = input.take 84 := by rw [← List.take_add]
  · intro hne
    rw [hlen]
    omega

/-- Claim C6 witness: an 84-byte input declaring one triangle, written with one
facet and a stand-in 12-byte `<3f` encoder. -/
theorem clean_binary_write_spec_witness :
    (∀ v : Vec3 ℚ, ((fun _ : Vec3 ℚ => List.replicate 12 0) v).length = 12)
    ∧ 84 ≤ (List.replicate 80 7 ++ [1, 0, 0, 0] : List ℕ).length
    ∧ (clean_binary_write (fun _ : Vec3 ℚ => List.replicate 12 0)
        ((List.replicate 80 7 ++ [1, 0, 0, 0] : List ℕ).take 80)
        (le_u32 ((List.replicate 80 7 ++ [1, 0, 0, 0] : List ℕ).getD 80 0)
          ((List.replicate 80 7 ++ [1, 0, 0, 0] : List ℕ).getD 81 0)
          ((List.replicate 80 7 ++ [1, 0, 0, 0] : List ℕ).getD 82 0)
          ((List.replicate 80 7 ++ [1, 0, 0, 0] : List ℕ).getD 83 0))
        ⟨0, 0, 0⟩ [⟨⟨0, 0, 1⟩, ⟨0, 0, 0⟩, ⟨1, 0, 0⟩, ⟨0, 1, 0⟩⟩]).length
      = 84 + 50 * 1 := by
  refine ⟨fun v => rfl, by decide, ?_⟩
  exact (clean_binary_write_spec (fun _ : Vec3 ℚ => List.replicate 12 0) (fun v => rfl)
    (List.replicate 80 7 ++ [1, 0, 0, 0]) (by decide) (by decide)
    ⟨0, 0, 0⟩ [⟨⟨0, 0, 1⟩, ⟨0, 0, 0⟩, ⟨1, 0, 0⟩, ⟨0, 1, 0⟩⟩]).2.1

/-! ## Binary read loop (source lines 267-306) -/

/-- One 50-byte triangle record after `struct.unpack` (source lines 277-281);
the twelve floats become exact rationals, the attribute byte count a `ℕ`. -/
structure BinRecord where
  normal : Vec3 ℚ
  v1 : Vec3 ℚ
  v2 : Vec3 ℚ
  v3 : Vec3 ℚ
  attr_byte_count : ℕ

/-- The message raised by `handle_error_with_file_pos(ERROR, pos, expected)`
with `got = None` (source lines 199-208). -/
def handle_error_with_file_pos (pos : ℕ) (expected : String) : String :=
  "Error on position " ++ toString pos ++ ": " ++ expected ++ "."

/-- The per-triangle read loop of `clean_binary_stl_file` (source lines
276-306): track the (buggy) minimum, recompute the normal discarding the
parsed one, append the facet, and abort with a fatal error when the attribute
byte count is nonzero.  `pos = 84 + i * 50` at line 294 reads the loop
variable `i` after the inner `for i in range(3)` of lines 286-288 has
overwritten it, so `i = 2` and `pos = 84 + 2 * 50 = 184` for every triangle.
The two warning branches (lines 296-300) do not alter the state modelled
here. -/
def clean_binary_read (sqrt : ℚ → ℚ) :
    List BinRecord → List (Facet ℚ) → Vec3 (WithTop ℚ) →
    Except String (List (Facet ℚ) × Vec3 (WithTop ℚ))
  | [], facets, minV => .ok (facets, minV)
  | r :: rest, facets, minV =>
    let minV2 := update_min_vertex_binary minV r.v1 r.v2 r.v3
    let normal := recalculate_normal sqrt r.v1 r.v2 r.v3
    let facets2 := facets ++ [⟨normal, r.v1, r.v2, r.v3⟩]
    let pos := 84 + 2 * 50
    if r.attr_byte_count ≠ 0 then
      .error (handle_error_with_file_pos pos
        ("Attribute byte count should be '0', but got '"
          ++ toString r.attr_byte_count ++ "'"))
    else clean_binary_read sqrt rest facets2 minV2

/-- Claim C3: a binary file whose triangle 0 has attribute byte count 5 aborts
with a fatal error, but the reported position is 184, not the byte offset 84
of triangle 0: the inner loop of lines 286-288 has clobbered the triangle
index `i` with 2, so `84 + i * 50` evaluates to 184 for every triangle. -/
theorem binary_attr_error_position_bug :
    clean_binary_read (fun q => q)
        [⟨⟨0, 0, 1⟩, ⟨0, 0, 0⟩, ⟨1, 0, 0⟩, ⟨0, 1, 0⟩, 5⟩] [] inf_min_vertex
      = .error "Error on position 184: Attribute byte count should be '0', but got '5'."
    ∧ handle_error_with_file_pos 184 "Attribute byte count should be '0', but got '5'"
      ≠ handle_error_with_file_pos 84 "Attribute byte count should be '0', but got '5'" := by
  refine ⟨by with_unfolding_all rfl, by decide⟩

/-! ## Full pipelines and output-file effects -/

/-- An effect on the output file; fatal parse errors must leave the trace
empty (the output file is opened only after parsing, source lines 314/480). -/
inductive FileOp
  | openOutput
  | writeBytes (bytes : List ℕ)
  | writeLines (ls : List String)
deriving DecidableEq

/-- `clean_binary_stl_file` (source lines 267-338): read loop, manifold
repair, offset computation, write phase.  The fatal attribute-byte-count error
of the read loop propagates before `open(output_file_path, 'wb')` at line 314,
so it yields an empty effect trace. -/
def clean_binary_stl_file (sqrt : ℚ → ℚ) (pack3f : Vec3 ℚ → List ℕ) (cfg : Config)
    (header : List ℕ) (triangle_count : ℕ) (records : List BinRecord) :
    List FileOp × Option String :=
  match clean_binary_read sqrt records [] inf_min_vertex with
  | .error e => ([], some e)
  | .ok (facets, minV) =>
    let facets2 := make_model_manifold sqrt facets
    let adapt := adapt_vertex cfg minV
    ([.openOutput,
      .writeBytes (clean_binary_write pack3f header triangle_count adapt facets2)], none)

/-! ## ASCII codec (source lines 352-481) -/

/-- The message of `handle_error_with_line_index(ERROR, expected, got)`
(source lines 180-189; every fatal ASCII call site passes `got`). -/
def handle_error_with_line_index (line_index : ℕ) (expected got : String) : String :=
  "Error on line " ++ toString (line_index + 1) ++ ": Expected '" ++ expected
    ++ "' but got '" ++ got.trim ++ "'."

/-- `skip_empty_lines` (source lines 223-228): advance while the current line
is blank and a further line exists, as fuel recursion on the line count. -/
def skip_empty_lines (lines : List String) : ℕ → ℕ → ℕ
  | 0, line_index => line_index
  | fuel + 1, line_index =>
    if line_index + 1 < lines.length ∧ (lines.getD line_index "").trim = ""
    then skip_empty_lines lines fuel (line_index + 1)
    else line_index

/-- `init_line` (source lines 230-233). -/
def init_line (lines : List String) : ℕ := skip_empty_lines lines lines.length 0

/-- `go_to_next_line` (source lines 235-238). -/
def go_to_next_line (lines : List String) (line_index : ℕ) : ℕ :=
  skip_empty_lines lines lines.length (line_index + 1)

/-- `get_current_line` (source lines 219-221): `lines[line_index]`; an
out-of-range index raises `IndexError` in Python — also a fatal abort that
happens before any output is written. -/
def get_current_line (lines : List String) (line_index : ℕ) : Except String String :=
  if h : line_index < lines.length then .ok (lines.get ⟨line_index, h⟩)
  else .error "IndexError: list index out of range"

/-- The solid-name capture (source lines 361-365): the regex `^solid [^\n]+$`
matches a stripped, newline-free line iff the line starts with `"solid "` and
has at least one further character; the captured name is `line[6:].lstrip()`.
On no match a warning is emitted and the name is empty. -/
def solid_name_of_line (line : String) : String :=
  if line.startsWith "solid " ∧ 6 < line.length then (line.drop 6).trimLeft else ""

/-- The endsolid-name capture (source lines 433-436): the regex
`^endsolid [^\n]+$` matches iff the line starts with `"endsolid "` and has at
least one further character; the captured name is `line[6:].lstrip()` —
dropping only 6 characters of the 8-character keyword `endsolid`, so the
capture keeps the trailing `"id "`-prefixed remainder of the keyword. -/
def endsolid_name_of_line (line : String) : String :=
  if line.startsWith "endsolid " ∧ 9 < line.length then (line.drop 6).trimLeft else ""

/-- The output model-name resolution (source lines 445-452). -/
def resolve_name (cfg : Config) (solid_name endsolid_name : String) : String :=
  let name := solid_name
  let name :=
    if cfg.ignore_endsolid_name = false then
      let name2 := if name = "" then endsolid_name else name
      if solid_name ≠ "" ∧ endsolid_name ≠ "" ∧ solid_name ≠ endsolid_name
      then solid_name ++ " | " ++ endsolid_name
      else name2
    else name
  if name = "" then "model" else name

/-- The line-level syntax predicates and float parsing of the ASCII reader,
kept abstract: `matchFacetNormal`/`matchVertex` stand for the `re.search`
checks at source lines 382 and 398, `parseVertex` for
`list(map(float, line.split()[1:]))` at line 402.  (The numbers of the
`facet normal` line are parsed at line 384 and discarded at line 415, so no
parser for them is needed.) -/
structure AsciiLineSyntax where
  matchFacetNormal : String → Bool
  matchVertex : String → Bool
  parseVertex : String → Vec3 ℚ

/-- The 3-vertex inner loop of one ASCII facet (source lines 390-410). -/
def parse_vertices (S : AsciiLineSyntax) (lines : List String) :
    ℕ → ℕ → List (Vec3 ℚ) → Vec3 (WithTop ℚ) →
    Except String (ℕ × List (Vec3 ℚ) × Vec3 (WithTop ℚ))
  | 0, line_index, vertices, minV => .ok (line_index, vertices, minV)
  | n + 1, line_index, vertices, minV => do
    let line ← get_current_line lines line_index
    if S.matchVertex line = false then
      .error (handle_error_with_line_index line_index
        "vertex <unsigned float> <unsigned float> <unsigned float>" line)
    else
      let vertex := S.parseVertex line
      let line_index2 := go_to_next_line lines line_index
      let minV2 := update_min_vertex_ascii minV vertex
      parse_vertices S lines n line_index2 (vertices ++ [vertex]) minV2

/-- The facet loop of the ASCII reader (source lines 381-426): grammar checks
`facet normal` / `outer loop` / 3 vertices / `endloop` / `endfacet`, normal
recomputation (line 415), facet collection.  The counterclockwise check only
emits a warning. -/
def parse_facets (S : AsciiLineSyntax) (sqrt : ℚ → ℚ) (lines : List String) :
    ℕ → ℕ → List (Facet ℚ) → Vec3 (WithTop ℚ) →
    Except String (ℕ × List (Facet ℚ) × Vec3 (WithTop ℚ))
  | 0, line_index, facets, minV => .ok (line_index, facets, minV)
  | n + 1, line_index, facets, minV => do
    let line ← get_current_line lines line_index
    if S.matchFacetNormal line = false then
      .error (handle_error_with_line_index line_index
        "facet normal <float> <float> <float>" line)
    else
      let line_index := go_to_next_line lines line_index
      let line2 ← get_current_line lines line_index
      if line2 ≠ "outer loop" then
        .error (handle_error_with_line_index line_index "outer loop" line2)
      else
        let line_index := go_to_next_line lines line_index
        let (line_index, vertices, minV2) ← parse_vertices S lines 3 line_index [] minV
        let v1 := vertices.getD 0 ⟨0, 0, 0⟩
        let v2 := vertices.getD 1 ⟨0, 0, 0⟩
        let v3 := vertices.getD 2 ⟨0, 0, 0⟩
        let normal := recalculate_normal sqrt v1 v2 v3
        let facets2 := facets ++ [⟨normal, v1, v2, v3⟩]
        let line3 ← get_current_line lines line_index
        if line3 ≠ "endloop" then
          .error (handle_error_with_line_index line_index "endloop" line3)
        else
          let line_index := go_to_next_line lines line_index
          let line4 ← get_current_line lines line_index
          if line4 ≠ "endfacet" then
            .error (handle_error_with_line_index line_index "endfacet" line4)
          else
            parse_facets S sqrt lines n (go_to_next_line lines line_index) facets2 minV2

/-- The seven output lines of one facet (source lines 464-478), with the
Python float formatting abstracted as `fmt`. -/
def ascii_facet_lines (fmt : ℚ → String) (INDENT : String) (adapt : Vec3 ℚ) (f : Facet ℚ) :
    List String :=
  let w := write_facet_fixup adapt f
  [INDENT ++ "facet normal " ++ fmt w.normal.x ++ " " ++ fmt w.normal.y ++ " " ++ fmt w.normal.z,
   INDENT ++ INDENT ++ "outer loop",
   INDENT ++ INDENT ++ INDENT ++ "vertex "
     ++ fmt w.v1.x ++ " " ++ fmt w.v1.y ++ " " ++ fmt w.v1.z,
   INDENT ++ INDENT ++ INDENT ++ "vertex "
     ++ fmt w.v2.x ++ " " ++ fmt w.v2.y ++ " " ++ fmt w.v2.z,
   INDENT ++ INDENT ++ INDENT ++ "vertex "
     ++ fmt w.v3.x ++ " " ++ fmt w.v3.y ++ " " ++ fmt w.v3.z,
   INDENT ++ INDENT ++ "endloop",
   INDENT ++ "endfacet"]

/-- The parse-and-build phase of `clean_ascii_stl_file` (source lines
357-479): everything before the output file is opened at line 480.  `lines`
are the input lines after the whitespace normalization of line 355.  The
expected facet count is `(non_blank_lines - 2) // 7`; Python floor division
makes it negative (an empty loop) when fewer than 2 non-blank lines exist,
and ℕ subtraction yields 0, also an empty loop. -/
def clean_ascii_parse (S : AsciiLineSyntax) (sqrt : ℚ → ℚ) (fmt : ℚ → String)
    (cfg : Config) (lines : List String) : Except String (List String) := do
  let line_index := init_line lines
  let line ← get_current_line lines line_index
  if line.startsWith "solid" = false then
    .error (handle_error_with_line_index line_index "solid" line)
  else
    let solid_name := solid_name_of_line line
    let line_index := go_to_next_line lines line_index
    let total_facet_count := ((lines.filter (fun l => !(l.trim == ""))).length - 2) / 7
    let (line_index, facets, minV) ←
      parse_facets S sqrt lines total_facet_count line_index [] inf_min_vertex
    let line ← get_current_line lines line_index
    if line.startsWith "endsolid" = false then
      .error (handle_error_with_line_index line_index "endsolid" line)
    else
      let endsolid_name := endsolid_name_of_line line
      let facets := make_model_manifold sqrt facets
      let name := resolve_name cfg solid_name endsolid_name
      let INDENT := String.join (List.replicate cfg.indent_spaces " ")
      let adapt := adapt_vertex cfg minV
      let facet_lines := facets.flatMap (ascii_facet_lines fmt INDENT adapt)
      .ok (["solid " ++ name] ++ facet_lines ++ ["endsolid " ++ name])

/-- `clean_ascii_stl_file` (source lines 352-481): on a successful parse the
output file is opened and all lines are written at once (lines 480-481); a
fatal parse error propagates first and leaves the effect trace empty. -/
def clean_ascii_stl_file (S : AsciiLineSyntax) (sqrt : ℚ → ℚ) (fmt : ℚ → String)
    (cfg : Config) (lines : List String) : List FileOp × Option String :=
  match clean_ascii_parse S sqrt fmt cfg lines with
  | .error e => ([], some e)
  | .ok fixed_lines => ([.openOutput, .writeLines fixed_lines], none)

/-- Stand-in line syntax for concrete runs that contain no facet lines. -/
def stubSyntax : AsciiLineSyntax :=
  ⟨fun _ => false, fun _ => false, fun _ => ⟨0, 0, 0⟩⟩

/-- Claim C4: on the error-free input `solid cube` / `endsolid cube` the
output is NOT bounded by `solid cube` / `endsolid cube`: the endsolid-name
capture takes `line[6:]` although `endsolid` has 8 characters, so it captures
`id cube`; both names are then non-empty and different, and the emitted name
is `cube | id cube`. -/
theorem ascii_endsolid_name_bug :
    clean_ascii_parse stubSyntax (fun q => q) (fun _ => "") defaultConfig
        ["solid cube", "endsolid cube"]
      = .ok ["solid cube | id cube", "endsolid cube | id cube"]
    ∧ endsolid_name_of_line "endsolid cube" = "id cube"
    ∧ resolve_name defaultConfig "cube" "id cube" = "cube | id cube"
    ∧ "cube | id cube" ≠ "cube" := by
  refine ⟨by with_unfolding_all rfl, by with_unfolding_all rfl, by with_unfolding_all rfl,
    by decide⟩

/-- Claim C9: whenever a pipeline reports a fatal parse error (any binary
attribute-byte-count error, any ASCII grammar error — and, conservatively, a
Python `IndexError` from the line cursor), its output-file effect trace is
empty: the error propagates before the output file is opened, so no partial
output is written.  Stated for both codecs, for every input and every
instantiation of the abstract parameters. -/
theorem fatal_error_means_no_output :
    (∀ (sqrt : ℚ → ℚ) (pack3f : Vec3 ℚ → List ℕ) (cfg : Config) (header : List ℕ)
      (triangle_count : ℕ) (records : List BinRecord),
      ((clean_binary_stl_file sqrt pack3f cfg header triangle_count records).2).isSome = true →
      (clean_binary_stl_file sqrt pack3f cfg header triangle_count records).1 = [])
    ∧ (∀ (S : AsciiLineSyntax) (sqrt : ℚ → ℚ) (fmt : ℚ → String) (cfg : Config)
      (lines : List String),
      ((clean_ascii_stl_file S sqrt fmt cfg lines).2).isSome = true →
      (clean_ascii_stl_file S sqrt fmt cfg lines).1 = []) := by
  constructor
  · intro sqrt pack3f cfg header triangle_count records h
    unfold clean_binary_stl_file at h ⊢
    cases hr : clean_binary_read sqrt records [] inf_min_vertex with
    | error e => simp [hr]
    | ok v => rw [hr] at h; simp at h
  · intro S sqrt fmt cfg lines h
    unfold clean_ascii_stl_file at h ⊢
    cases hr : clean_ascii_parse S sqrt fmt cfg lines with
    | error e => simp [hr]
    | ok v => rw [hr] at h; simp at h

/-- Claim C9 witness: a binary input whose only triangle has attribute byte
count 5, and an ASCII input whose first line is not `solid`; both report a
fatal error and both effect traces are empty. -/
theorem fatal_error_means_no_output_witness :
    ((clean_binary_stl_file (fun q => q) (fun _ => []) defaultConfig [] 1
        [⟨⟨0, 0, 1⟩, ⟨0, 0, 0⟩, ⟨1, 0, 0⟩, ⟨0, 1, 0⟩, 5⟩]).2).isSome = true
    ∧ (clean_binary_stl_file (fun q => q) (fun _ => []) defaultConfig [] 1
        [⟨⟨0, 0, 1⟩, ⟨0, 0, 0⟩, ⟨1, 0, 0⟩, ⟨0, 1, 0⟩, 5⟩]).1 = []
    ∧ ((clean_ascii_stl_file stubSyntax (fun q => q) (fun _ => "") defaultConfig
        ["bogus"]).2).isSome = true
    ∧ (clean_ascii_stl_file stubSyntax (fun q => q) (fun _ => "") defaultConfig
        ["bogus"]).1 = [] := by
  have hb : ((clean_binary_stl_file (fun q => q) (fun _ => []) defaultConfig [] 1
      [⟨⟨0, 0, 1⟩, ⟨0, 0, 0⟩, ⟨1, 0, 0⟩, ⟨0, 1, 0⟩, 5⟩]).2).isSome = true := by
    with_unfolding_all rfl
  have ha : ((clean_ascii_stl_file stubSyntax (fun q => q) (fun _ => "") defaultConfig
      ["bogus"]).2).isSome = true := by
    with_unfolding_all rfl
  exact ⟨hb, fatal_error_means_no_output.1 _ _ _ _ _ _ hb, ha,
    fatal_error_means_no_output.2 _ _ _ _ _ ha⟩

/-! ## Geometry kernel over the reals (C7, C10) -/

/-- Claim C10: `normalize_vector` (with the real square root standing for
`math.sqrt`) returns the zero vector when the magnitude is zero — the guard
prevents the division from ever seeing a zero divisor — and otherwise returns
the vector with each component divided by the magnitude, a vector of unit
length. -/
theorem normalize_vector_spec (v : Vec3 ℝ) :
    (vector_magnitude Real.sqrt v = 0 → normalize_vector Real.sqrt v = ⟨0, 0, 0⟩)
    ∧ (vector_magnitude Real.sqrt v ≠ 0 →
        normalize_vector Real.sqrt v
          = ⟨v.x / vector_magnitude Real.sqrt v, v.y / vector_magnitude Real.sqrt v,
             v.z / vector_magnitude Real.sqrt v⟩
        ∧ vector_magnitude Real.sqrt (normalize_vector Real.sqrt v) = 1) := by
  constructor
  · intro h
    simp only [normalize_vector, if_pos h]
  · intro h
    have hS : 0 ≤ v.x ^ 2 + v.y ^ 2 + v.z ^ 2 := by positivity
    have hm0 : vector_magnitude Real.sqrt v = Real.sqrt (v.x ^ 2 + v.y ^ 2 + v.z ^ 2) := rfl
    have hSne : v.x ^ 2 + v.y ^ 2 + v.z ^ 2 ≠ 0 := by
      intro h0
      apply h
      rw [hm0, h0, Real.sqrt_zero]
    refine ⟨by simp only [normalize_vector, if_neg h], ?_⟩
    simp only [normalize_vector, if_neg h]
    have hsq : Real.sqrt (v.x ^ 2 + v.y ^ 2 + v.z ^ 2) ^ 2 = v.x ^ 2 + v.y ^ 2 + v.z ^ 2 :=
      Real.sq_sqrt hS
    simp only [vector_magnitude]
    rw [div_pow, div_pow, div_pow, div_add_div_same, div_add_div_same, hsq,
      div_self hSne, Real.sqrt_one]

/-- Claim C10 witness: the unit vector `(0,0,1)` has nonzero magnitude and its
normalization has magnitude 1. -/
theorem normalize_vector_spec_witness :
    vector_magnitude Real.sqrt (⟨0, 0, 1⟩ : Vec3 ℝ) ≠ 0
    ∧ vector_magnitude Real.sqrt (normalize_vector Real.sqrt (⟨0, 0, 1⟩ : Vec3 ℝ)) = 1 := by
  have h1 : vector_magnitude Real.sqrt (⟨0, 0, 1⟩ : Vec3 ℝ) = 1 := by
    simp only [vector_magnitude]
    rw [show ((0 : ℝ) ^ 2 + (0 : ℝ) ^ 2 + (1 : ℝ) ^ 2) = 1 by norm_num, Real.sqrt_one]
  have hne : vector_magnitude Real.sqrt (⟨0, 0, 1⟩ : Vec3 ℝ) ≠ 0 := by
    rw [h1]
    exact one_ne_zero
  exact ⟨hne, ((normalize_vector_spec ⟨0, 0, 1⟩).2 hne).2⟩

/-- Claim C7 helper: the edge vectors, and hence the recomputed normal, are
invariant under translating all three vertices by a common offset. -/
theorem vsub_vadd_cancel (a b adapt : Vec3 ℝ) : vsub (vadd a adapt) (vadd b adapt) = vsub a b := by
  simp only [vsub, vadd, Vec3.mk.injEq]
  refine ⟨by ring, by ring, by ring⟩

/-- Claim C7 helper: the dot product of a vector with its own normalization is
nonnegative. -/
theorem dot_normalize_nonneg (c : Vec3 ℝ) :
    0 ≤ dot_product c (normalize_vector Real.sqrt c) := by
  by_cases h : vector_magnitude Real.sqrt c = 0
  · simp [normalize_vector, h, dot_product]
  · simp only [normalize_vector, if_neg h]
    have hrw : dot_product c
        ⟨c.x / vector_magnitude Real.sqrt c, c.y / vector_magnitude Real.sqrt c,
         c.z / vector_magnitude Real.sqrt c⟩
        = (c.x ^ 2 + c.y ^ 2 + c.z ^ 2) / vector_magnitude Real.sqrt c := by
      simp only [dot_product]
      ring
    rw [hrw]
    exact div_nonneg (by positivity) (Real.sqrt_nonneg _)

/-- Claim C7 helper: for a nonzero vector the dot product with its own
normalization is strictly positive. -/
theorem dot_normalize_pos (c : Vec3 ℝ) (hc : c ≠ ⟨0, 0, 0⟩) :
    0 < dot_product c (normalize_vector Real.sqrt c) := by
  have hS : 0 < c.x ^ 2 + c.y ^ 2 + c.z ^ 2 := by
    rcases lt_or_eq_of_le (by positivity : (0 : ℝ) ≤ c.x ^ 2 + c.y ^ 2 + c.z ^ 2) with h | h
    · exact h
    · exfalso
      apply hc
      have hx : c.x = 0 := by nlinarith [sq_nonneg c.x, sq_nonneg c.y, sq_nonneg c.z]
      have hy : c.y = 0 := by nlinarith [sq_nonneg c.x, sq_nonneg c.y, sq_nonneg c.z]
      have hz : c.z = 0 := by nlinarith [sq_nonneg c.x, sq_nonneg c.y, sq_nonneg c.z]
      have heta : c = ⟨c.x, c.y, c.z⟩ := rfl
      rw [heta, hx, hy, hz]
  have hmpos : 0 < vector_magnitude Real.sqrt c := Real.sqrt_pos.mpr hS
  have h : vector_magnitude Real.sqrt c ≠ 0 := ne_of_gt hmpos
  simp only [normalize_vector, if_neg h]
  have hrw : dot_product c
      ⟨c.x / vector_magnitude Real.sqrt c, c.y / vector_magnitude Real.sqrt c,
       c.z / vector_magnitude Real.sqrt c⟩
      = (c.x ^ 2 + c.y ^ 2 + c.z ^ 2) / vector_magnitude Real.sqrt c := by
    simp only [dot_product]
    ring
  rw [hrw]
  exact div_pos hS hmpos

/-- Claim C7, amended.  Every facet reaching the writers satisfies the
read/repair invariant `normal = recalculate_normal(v1, v2, v3)` (established
at source lines 290 and 415 for parsed facets and 120-121 for synthesized
ones).  For such a facet the write-time fix-up performs no swap, the stored
normal written out equals the recomputed normal of the three written
(translated) vertices, and the written ordering has NONNEGATIVE dot product
with the stored normal — strictly positive (counterclockwise in the sense of
`is_counterclockwise`) whenever the facet is nondegenerate, i.e. its edge
cross product is nonzero.  For degenerate facets the dot product is 0, which
is why the claim's unconditional "positive dot" fails. -/
theorem write_facet_fixup_normal_invariant (adapt : Vec3 ℝ) (f : Facet ℝ)
    (hf : f.normal = recalculate_normal Real.sqrt f.v1 f.v2 f.v3) :
    write_facet_fixup adapt f
      = ⟨f.normal, vadd f.v1 adapt, vadd f.v2 adapt, vadd f.v3 adapt⟩
    ∧ (write_facet_fixup adapt f).normal
      = recalculate_normal Real.sqrt (write_facet_fixup adapt f).v1
          (write_facet_fixup adapt f).v2 (write_facet_fixup adapt f).v3
    ∧ 0 ≤ dot_product
        (cross_product (vsub (write_facet_fixup adapt f).v2 (write_facet_fixup adapt f).v1)
          (vsub (write_facet_fixup adapt f).v3 (write_facet_fixup adapt f).v1))
        (write_facet_fixup adapt f).normal
    ∧ (cross_product (vsub f.v2 f.v1) (vsub f.v3 f.v1) ≠ ⟨0, 0, 0⟩ →
        is_counterclockwise (write_facet_fixup adapt f).v1 (write_facet_fixup adapt f).v2
          (write_facet_fixup adapt f).v3 (write_facet_fixup adapt f).normal = true) := by
  have hedge1 : vsub (vadd f.v2 adapt) (vadd f.v1 adapt) = vsub f.v2 f.v1 :=
    vsub_vadd_cancel f.v2 f.v1 adapt
  have hedge2 : vsub (vadd f.v3 adapt) (vadd f.v1 adapt) = vsub f.v3 f.v1 :=
    vsub_vadd_cancel f.v3 f.v1 adapt
  have hdot : dot_product
      (cross_product (vsub (vadd f.v2 adapt) (vadd f.v1 adapt))
        (vsub (vadd f.v3 adapt) (vadd f.v1 adapt))) f.normal
      = dot_product (cross_product (vsub f.v2 f.v1) (vsub f.v3 f.v1))
          (normalize_vector Real.sqrt (cross_product (vsub f.v2 f.v1) (vsub f.v3 f.v1))) := by
    rw [hedge1, hedge2, hf]
    rfl
  have hnoswap : ¬ dot_product
      (cross_product (vsub (vadd f.v2 adapt) (vadd f.v1 adapt))
        (vsub (vadd f.v3 adapt) (vadd f.v1 adapt))) f.normal < 0 := by
    rw [hdot]
    exact not_lt.mpr (dot_normalize_nonneg _)
  have hfix : write_facet_fixup adapt f
      = ⟨f.normal, vadd f.v1 adapt, vadd f.v2 adapt, vadd f.v3 adapt⟩ := by
    simp only [write_facet_fixup, ensure_counterclockwise, if_neg hnoswap]
  refine ⟨hfix, ?_, ?_, ?_⟩
  · rw [hfix]
    show f.normal = recalculate_normal Real.sqrt (vadd f.v1 adapt) (vadd f.v2 adapt)
      (vadd f.v3 adapt)
    rw [recalculate_normal, hedge1, hedge2, hf]
    rfl
  · rw [hfix]
    show 0 ≤ dot_product
      (cross_product (vsub (vadd f.v2 adapt) (vadd f.v1 adapt))
        (vsub (vadd f.v3 adapt) (vadd f.v1 adapt))) f.normal
    rw [hdot]
    exact dot_normalize_nonneg _
  · intro hc
    rw [hfix]
    show is_counterclockwise (vadd f.v1 adapt) (vadd f.v2 adapt) (vadd f.v3 adapt) f.normal
      = true
    rw [is_counterclockwise]
    simp only [hedge1, hedge2, hf, decide_eq_true_eq]
    exact dot_normalize_pos _ hc

/-- Claim C7, counterexample.  The degenerate facet with collinear vertices
`(0,0,0), (1,0,0), (2,0,0)` — exactly as the read phase would build it, with
its recomputed (zero) normal stored — is written unchanged by the fix-up, and
the written ordering is NOT counterclockwise with respect to the stored
normal: the dot product of the edge cross product with the normal is 0, not
positive, so `is_counterclockwise` returns `false` on the written facet. -/
theorem write_facet_fixup_degenerate_cex :
    recalculate_normal Real.sqrt (⟨0, 0, 0⟩ : Vec3 ℝ) ⟨1, 0, 0⟩ ⟨2, 0, 0⟩ = ⟨0, 0, 0⟩
    ∧ is_counterclockwise
        (write_facet_fixup (⟨0, 0, 0⟩ : Vec3 ℝ)
          ⟨recalculate_normal Real.sqrt ⟨0, 0, 0⟩ ⟨1, 0, 0⟩ ⟨2, 0, 0⟩,
           ⟨0, 0, 0⟩, ⟨1, 0, 0⟩, ⟨2, 0, 0⟩⟩).v1
        (write_facet_fixup (⟨0, 0, 0⟩ : Vec3 ℝ)
          ⟨recalculate_normal Real.sqrt ⟨0, 0, 0⟩ ⟨1, 0, 0⟩ ⟨2, 0, 0⟩,
           ⟨0, 0, 0⟩, ⟨1, 0, 0⟩, ⟨2, 0, 0⟩⟩).v2
        (write_facet_fixup (⟨0, 0, 0⟩ : Vec3 ℝ)
          ⟨recalculate_normal Real.sqrt ⟨0, 0, 0⟩ ⟨1, 0, 0⟩ ⟨2, 0, 0⟩,
           ⟨0, 0, 0⟩, ⟨1, 0, 0⟩, ⟨2, 0, 0⟩⟩).v3
        (write_facet_fixup (⟨0, 0, 0⟩ : Vec3 ℝ)
          ⟨recalculate_normal Real.sqrt ⟨0, 0, 0⟩ ⟨1, 0, 0⟩ ⟨2, 0, 0⟩,
           ⟨0, 0, 0⟩, ⟨1, 0, 0⟩, ⟨2, 0, 0⟩⟩).normal = false := by
  have hC : cross_product (vsub (⟨1, 0, 0⟩ : Vec3 ℝ) ⟨0, 0, 0⟩)
      (vsub (⟨2, 0, 0⟩ : Vec3 ℝ) ⟨0, 0, 0⟩) = ⟨0, 0, 0⟩ := by
    simp only [cross_product, vsub, Vec3.mk.injEq]
    norm_num
  have hmag : vector_magnitude Real.sqrt (⟨0, 0, 0⟩ : Vec3 ℝ) = 0 := by
    simp only [vector_magnitude]
    rw [show ((0 : ℝ) ^ 2 + (0 : ℝ) ^ 2 + (0 : ℝ) ^ 2) = 0 by norm_num, Real.sqrt_zero]
  have hrecalc : recalculate_normal Real.sqrt (⟨0, 0, 0⟩ : Vec3 ℝ) ⟨1, 0, 0⟩ ⟨2, 0, 0⟩
      = ⟨0, 0, 0⟩ := by
    rw [recalculate_normal, hC]
    simp only [normalize_vector, if_pos hmag]
  have hzero : ∀ c : Vec3 ℝ, dot_product c (⟨0, 0, 0⟩ : Vec3 ℝ) = 0 := by
    intro c
    simp only [dot_product]
    ring
  have hfix : write_facet_fixup (⟨0, 0, 0⟩ : Vec3 ℝ)
      ⟨recalculate_normal Real.sqrt ⟨0, 0, 0⟩ ⟨1, 0, 0⟩ ⟨2, 0, 0⟩,
       ⟨0, 0, 0⟩, ⟨1, 0, 0⟩, ⟨2, 0, 0⟩⟩
      = ⟨⟨0, 0, 0⟩, vadd ⟨0, 0, 0⟩ ⟨0, 0, 0⟩, vadd ⟨1, 0, 0⟩ ⟨0, 0, 0⟩,
         vadd ⟨2, 0, 0⟩ ⟨0, 0, 0⟩⟩ := by
    rw [hrecalc]
    simp only [write_facet_fixup, ensure_counterclockwise, hzero]
    rw [if_neg (lt_irrefl 0)]
  refine ⟨hrecalc, ?_⟩
  rw [hfix]
  show is_counterclockwise (vadd (⟨0, 0, 0⟩ : Vec3 ℝ) ⟨0, 0, 0⟩) (vadd ⟨1, 0, 0⟩ ⟨0, 0, 0⟩)
    (vadd ⟨2, 0, 0⟩ ⟨0, 0, 0⟩) ⟨0, 0, 0⟩ = false
  rw [is_counterclockwise]
  simp only [hzero, decide_eq_false_iff_not, not_lt]
  exact le_refl 0

/-- Claim C7 witness: the nondegenerate facet on `(0,0,0), (1,0,0), (0,1,0)`
(stored normal as recomputed by the reader) is written unswapped and its
written ordering is counterclockwise with respect to the stored normal. -/
theorem write_facet_fixup_normal_invariant_witness :
    ((⟨recalculate_normal Real.sqrt ⟨0, 0, 0⟩ ⟨1, 0, 0⟩ ⟨0, 1, 0⟩,
       ⟨0, 0, 0⟩, ⟨1, 0, 0⟩, ⟨0, 1, 0⟩⟩ : Facet ℝ).normal
      = recalculate_normal Real.sqrt (⟨0, 0, 0⟩ : Vec3 ℝ) ⟨1, 0, 0⟩ ⟨0, 1, 0⟩)
    ∧ cross_product (vsub (⟨1, 0, 0⟩ : Vec3 ℝ) ⟨0, 0, 0⟩) (vsub (⟨0, 1, 0⟩ : Vec3 ℝ) ⟨0, 0, 0⟩)
      ≠ ⟨0, 0, 0⟩
    ∧ is_counterclockwise
        (write_facet_fixup (⟨0, 0, 0⟩ : Vec3 ℝ)
          ⟨recalculate_normal Real.sqrt ⟨0, 0, 0⟩ ⟨1, 0, 0⟩ ⟨0, 1, 0⟩,
           ⟨0, 0, 0⟩, ⟨1, 0, 0⟩, ⟨0, 1, 0⟩⟩).v1
        (write_facet_fixup (⟨0, 0, 0⟩ : Vec3 ℝ)
          ⟨recalculate_normal Real.sqrt ⟨0, 0, 0⟩ ⟨1, 0, 0⟩ ⟨0, 1, 0⟩,
           ⟨0, 0, 0⟩, ⟨1, 0, 0⟩, ⟨0, 1, 0⟩⟩).v2
        (write_facet_fixup (⟨0, 0, 0⟩ : Vec3 ℝ)
          ⟨recalculate_normal Real.sqrt ⟨0, 0, 0⟩ ⟨1, 0, 0⟩ ⟨0, 1, 0⟩,
           ⟨0, 0, 0⟩, ⟨1, 0, 0⟩, ⟨0, 1, 0⟩⟩).v3
        (write_facet_fixup (⟨0, 0, 0⟩ : Vec3 ℝ)
          ⟨recalculate_normal Real.sqrt ⟨0, 0, 0⟩ ⟨1, 0, 0⟩ ⟨0, 1, 0⟩,
           ⟨0, 0, 0⟩, ⟨1, 0, 0⟩, ⟨0, 1, 0⟩⟩).normal = true := by
  have hc : cross_product (vsub (⟨1, 0, 0⟩ : Vec3 ℝ) ⟨0, 0, 0⟩)
      (vsub (⟨0, 1, 0⟩ : Vec3 ℝ) ⟨0, 0, 0⟩) ≠ ⟨0, 0, 0⟩ := by
    simp only [cross_product, vsub, Vec3.mk.injEq, not_and]
    norm_num
  exact ⟨rfl, hc,
    (write_facet_fixup_normal_invariant ⟨0, 0, 0⟩
      ⟨recalculate_normal Real.sqrt ⟨0, 0, 0⟩ ⟨1, 0, 0⟩ ⟨0, 1, 0⟩,
       ⟨0, 0, 0⟩, ⟨1, 0, 0⟩, ⟨0, 1, 0⟩⟩ rfl).2.2.2 hc⟩
